import Mathlib

/-!
Shallow embedding of the CoreDump crash-capture subsystem
(`CoreDump.h` / `CoreDump.cpp`), default build: in `Options.h` the
`USE_HARDWARE` and `USE_OPERATING_SYSTEM` switches are off, so the
register-file capture, the SP-register re-acquisition and the record's
thread-call-stack matrix are compiled out.  The 32-bit C `uint32_t`
values are modelled as `Nat`; the one place a bitwise operation occurs
(`~KEY_CORE_DUMP_STORED`) is written as a 32-bit xor with the all-ones
mask.  Raw memory is a total function from byte address to the 32-bit
word read at that address; `uint32_t*` pointer arithmetic `p + d`
advances the byte address by `4 * d`.
-/

namespace CoreDump

/-! ### Constants from `CoreDump.h` -/

/-- A marker used to indicate the top of the stack. -/
def STACK_MARKER : Nat := 0xEFEFEFEF

/-- A unique key to determine if a core dump data structure is valid. -/
def KEY_CORE_DUMP_STORED : Nat := 0xDEADBEEF

/-- Bitwise complement `~KEY_CORE_DUMP_STORED` at width 32. -/
def NOT_KEY_CORE_DUMP_STORED : Nat := 0xFFFFFFFF ^^^ KEY_CORE_DUMP_STORED

/-- Software application version number. -/
def SOFTWARE_VERSION : Nat := 1234

/-- Maximum file length name stored in core dump. -/
def FILE_NAME_LEN : Nat := 128

/-- The depth of the core dump call stack stored. -/
def CALL_STACK_SIZE : Nat := 8

/-- How far back into the stack to search, in 32-bit words. -/
def MAX_STACK_DEPTH_SEARCH : Nat := 1024

/-- RAM range start. -/
def RAM_BEGIN : Nat := 0x100000

/-- RAM range end (inclusive). -/
def RAM_END : Nat := 0x200000

/-- Flash (code segment) range start. -/
def FLASH_BASE : Nat := 0x400000

/-- Flash (code segment) range end (inclusive). -/
def FLASH_END : Nat := 0x500000

/-- How many operating system tasks to store within the core dump. -/
def OS_TASKCNT : Nat := 5

/-- `enum FaultType` from `CoreDump.h`. -/
inductive FaultType where
  | FAULT_EXCEPTION
  | SOFTWARE_ASSERTION
deriving DecidableEq, Repr

/-- The `CoreDumpData` record (default build: no register fields, no
thread-call-stack matrix).  The C field `Type` is named `Typ` here
because `Type` is a Lean keyword.  `FileName` models the 128-byte char
array as a list of byte values; `ActiveCallStack` models the
`uint32_t[CALL_STACK_SIZE]` array as a list of words. -/
structure CoreDumpData where
  Key : Nat
  NotKey : Nat
  SoftwareVersion : Nat
  AuxCode : Nat
  Typ : FaultType
  LineNumber : Nat
  FileName : List Nat
  ActiveCallStack : List Nat
deriving DecidableEq, Repr

/-! ### `IsCoreDumpSaved` (`CoreDump.cpp`, lines 163-170) -/

/-- `bool IsCoreDumpSaved()`: true iff `Key == KEY_CORE_DUMP_STORED`
and `NotKey == ~KEY_CORE_DUMP_STORED`. -/
def IsCoreDumpSaved (d : CoreDumpData) : Bool :=
  if d.Key = KEY_CORE_DUMP_STORED ∧ d.NotKey = NOT_KEY_CORE_DUMP_STORED then
    true
  else
    false

/-! ### `StoreCallStack` (`CoreDump.cpp`, lines 16-53) -/

/-- The C test `stackData >= FLASH_BASE && stackData <= FLASH_END`. -/
def isCodeAddr (w : Nat) : Bool :=
  decide (FLASH_BASE ≤ w ∧ w ≤ FLASH_END)

/-- The `for (depth = 0; depth < MAX_STACK_DEPTH_SEARCH; depth++)` loop
of `StoreCallStack`: the list of stack words the loop stores (the C
code writes them at successive indices of `stackStoreArr`).  `fuel` is
the number of loop iterations left, initially
`MAX_STACK_DEPTH_SEARCH`; `acc` is the list written so far (its length
is the C `stackDepth` counter). -/
def walkAux (mem : Nat → Nat) (sp len : Nat) :
    Nat → Nat → List Nat → List Nat
  | 0, _, acc => acc
  | fuel + 1, depth, acc =>
    let data := mem (sp + 4 * depth)
    if data = STACK_MARKER ∧ mem (sp + 4 * (depth + 1)) = STACK_MARKER then
      acc
    else
      let acc2 := if isCodeAddr data then acc ++ [data] else acc
      if len ≤ acc2.length then acc2
      else walkAux mem sp len fuel (depth + 1) acc2

/-- `static void StoreCallStack(uint32_t* stackPointer, uint32_t*
stackStoreArr, int stackStoreArrLen)`.  The `memset` zero-fill
followed by writes at indices `0, 1, ...` is modelled as the
stored-word list padded with zeros to the buffer length.  The guard is
the C test `(uint32_t)stackPointer < RAM_BEGIN ||
(uint32_t)stackPointer > RAM_END`. -/
def StoreCallStack (mem : Nat → Nat) (sp len : Nat) : List Nat :=
  if sp < RAM_BEGIN ∨ RAM_END < sp then
    List.replicate len 0
  else
    let found := walkAux mem sp len MAX_STACK_DEPTH_SEARCH 0 []
    found ++ List.replicate (len - found.length) 0

/-- The same loop, instrumented for the word offsets from
`stackPointer` that the iterations read: each iteration reads offset
`depth`, and — because the C `&&` short-circuits — reads the
neighbour offset `depth + 1` exactly when the word at `depth` equals
`STACK_MARKER`.  `stackDepth` is the C store counter (the length of
`walkAux`'s accumulator), which drives the early-exit test. -/
def walkReadsAux (mem : Nat → Nat) (sp len : Nat) :
    Nat → Nat → Nat → List Nat
  | 0, _, _ => []
  | fuel + 1, depth, stackDepth =>
    let data := mem (sp + 4 * depth)
    let iterReads := if data = STACK_MARKER then [depth, depth + 1] else [depth]
    if data = STACK_MARKER ∧ mem (sp + 4 * (depth + 1)) = STACK_MARKER then
      iterReads
    else
      let sd2 := if isCodeAddr data then stackDepth + 1 else stackDepth
      if len ≤ sd2 then iterReads
      else iterReads ++ walkReadsAux mem sp len fuel (depth + 1) sd2

/-- The word offsets from `stackPointer` that `StoreCallStack` reads
(none when the RAM-range guard rejects the pointer). -/
def storeCallStackReads (mem : Nat → Nat) (sp len : Nat) : List Nat :=
  if sp < RAM_BEGIN ∨ RAM_END < sp then []
  else walkReadsAux mem sp len MAX_STACK_DEPTH_SEARCH 0 0

/-! ### `CoreDumpStore` (`CoreDump.cpp`, lines 85-161) -/

/-- C `strncpy(dst, src, n)` on a `dst` buffer, where `src` is the
list of the source string's characters before its terminator: copies
at most `n` characters and pads with zeros up to `n` when the source
is shorter; bytes of `dst` past `n` are untouched. -/
def strncpyList (dst src : List Nat) (n : Nat) : List Nat :=
  (src.take n ++ List.replicate (n - src.length) 0) ++ dst.drop n

/-- `void CoreDumpStore(uint32_t* stackPointer, const char* fileName,
uint32_t lineNumber, uint32_t auxCode)` in the default build:
first-writer-wins guard, keys, version, aux code, fault
classification on `stackPointer != 0`, line number, guarded
`strncpy` with forced terminator, and the active-call-stack walk.
`stackPointer` is the pointer's address value (`0` for null);
`fileName` is `none` for a null pointer.  With `USE_HARDWARE` off no
register is captured and a null `stackPointer` is not re-acquired
from the SP register, so the walker runs on address `0`. -/
def CoreDumpStore (mem : Nat → Nat) (d : CoreDumpData) (stackPointer : Nat)
    (fileName : Option (List Nat)) (lineNumber auxCode : Nat) : CoreDumpData :=
  if IsCoreDumpSaved d then
    d
  else
    let d1 : CoreDumpData :=
      { d with Key := KEY_CORE_DUMP_STORED, NotKey := NOT_KEY_CORE_DUMP_STORED,
               SoftwareVersion := SOFTWARE_VERSION, AuxCode := auxCode }
    let d2 : CoreDumpData :=
      if stackPointer ≠ 0 then
        { d1 with Typ := FaultType.FAULT_EXCEPTION }
      else
        { d1 with Typ := FaultType.SOFTWARE_ASSERTION }
    let d3 : CoreDumpData :=
      match fileName with
      | some s =>
        { d2 with LineNumber := lineNumber,
                  FileName := (strncpyList d2.FileName s FILE_NAME_LEN).set
                    (FILE_NAME_LEN - 1) 0 }
      | none => { d2 with LineNumber := lineNumber }
    { d3 with ActiveCallStack := StoreCallStack mem stackPointer CALL_STACK_SIZE }

/-! ### `CoreDumpReset` (`CoreDump.cpp`, lines 177-181) -/

/-- `void CoreDumpReset()`: zero both keys, touch nothing else. -/
def CoreDumpReset (d : CoreDumpData) : CoreDumpData :=
  { d with Key := 0, NotKey := 0 }

/-! ### `StoreThreadCallStacks` (`CoreDump.cpp`, lines 56-83)

The multi-task walker is compiled only under `USE_OPERATING_SYSTEM`;
its loop body reads the external task table `os_active_TCB` and each
live control block's saved stack pointer `tsk_stack`.  The table is
modelled as `table : Nat → Option Nat` (`none` = null entry, `some
sp` = control block whose `tsk_stack` is `sp`).  The repository never
defines `CRASH_DUMP_TASK_SIZE`, so the break bound is a parameter.
The instrumented result pairs the walks performed — `(table index,
destination row, stored call stack)` — with the table indices read. -/

/-- The `for (int t = 0; t <= OS_TASKCNT; t++)` loop of
`StoreThreadCallStacks`: note the inclusive bound. `fuel` counts the
iterations left, initially `OS_TASKCNT + 1`. -/
def storeThreadAux (mem : Nat → Nat) (table : Nat → Option Nat)
    (crashDumpTaskSize : Nat) :
    Nat → Nat → Nat → List (Nat × Nat × List Nat) × List Nat
  | 0, _, _ => ([], [])
  | fuel + 1, t, taskCnt =>
    match table t with
    | none =>
      let r := storeThreadAux mem table crashDumpTaskSize fuel (t + 1) taskCnt
      (r.1, t :: r.2)
    | some sp =>
      let w := (t, taskCnt, StoreCallStack mem sp CALL_STACK_SIZE)
      if crashDumpTaskSize ≤ taskCnt + 1 then
        ([w], [t])
      else
        let r := storeThreadAux mem table crashDumpTaskSize fuel (t + 1)
          (taskCnt + 1)
        (w :: r.1, t :: r.2)

/-- `static void StoreThreadCallStacks()` (under
`USE_OPERATING_SYSTEM`): walks the task table with the one-off
inclusive loop bound `t <= OS_TASKCNT`. -/
def StoreThreadCallStacks (mem : Nat → Nat) (table : Nat → Option Nat)
    (crashDumpTaskSize : Nat) : List (Nat × Nat × List Nat) × List Nat :=
  storeThreadAux mem table crashDumpTaskSize (OS_TASKCNT + 1) 0 0

/-! ### Helper lemmas -/

/-- A call on an already-valid record is a no-op. -/
theorem store_of_saved (mem : Nat → Nat) (d : CoreDumpData) (sp : Nat)
    (fn : Option (List Nat)) (ln ax : Nat) (h : IsCoreDumpSaved d = true) :
    CoreDumpStore mem d sp fn ln ax = d := by
  unfold CoreDumpStore
  simp [h]

/-- After any call to `CoreDumpStore` the record is valid: either it
already was (and the call changed nothing), or the call wrote both
keys. -/
theorem isSaved_store (mem : Nat → Nat) (d : CoreDumpData) (sp : Nat)
    (fn : Option (List Nat)) (ln ax : Nat) :
    IsCoreDumpSaved (CoreDumpStore mem d sp fn ln ax) = true := by
  unfold CoreDumpStore
  split
  · assumption
  · unfold IsCoreDumpSaved
    cases fn <;> by_cases hsp : sp ≠ 0 <;> simp [hsp]

/-- Field-by-field description of `CoreDumpStore` on a not-yet-valid
record. -/
theorem store_fields (mem : Nat → Nat) (d : CoreDumpData) (sp : Nat)
    (fn : Option (List Nat)) (ln ax : Nat) (h : IsCoreDumpSaved d = false) :
    CoreDumpStore mem d sp fn ln ax =
      { Key := KEY_CORE_DUMP_STORED, NotKey := NOT_KEY_CORE_DUMP_STORED,
        SoftwareVersion := SOFTWARE_VERSION, AuxCode := ax,
        Typ := if sp ≠ 0 then FaultType.FAULT_EXCEPTION
               else FaultType.SOFTWARE_ASSERTION,
        LineNumber := ln,
        FileName :=
          match fn with
          | some s => (strncpyList d.FileName s FILE_NAME_LEN).set
              (FILE_NAME_LEN - 1) 0
          | none => d.FileName,
        ActiveCallStack := StoreCallStack mem sp CALL_STACK_SIZE } := by
  unfold CoreDumpStore
  simp only [h, Bool.false_eq_true, if_false]
  cases fn <;> by_cases hsp : sp ≠ 0 <;> simp [hsp]

/-- The stack marker is not a code address. -/
theorem isCodeAddr_STACK_MARKER : isCodeAddr STACK_MARKER = false := by
  decide

/-- Reading a zero-replicate at any index (in or out of range) with
default 0 gives 0. -/
theorem getD_replicate_zero (n i : Nat) :
    (List.replicate n (0:Nat)).getD i 0 = 0 := by
  induction n generalizing i with
  | zero => rfl
  | succ n ihn =>
    cases i with
    | zero => rfl
    | succ i => exact ihn i

/-- Reading past the data prefix of a zero-padded buffer gives 0. -/
theorem getD_padded (l : List Nat) (n i : Nat) (hi : l.length ≤ i) :
    (l ++ List.replicate n 0).getD i 0 = 0 := by
  induction l generalizing i with
  | nil => exact getD_replicate_zero n i
  | cons a t ihl =>
    cases i with
    | zero => simp at hi
    | succ i => simpa using ihl i (by simpa using hi)

/-- Reading inside the left part of an append. -/
theorem getD_append_left (l r : List Nat) (i : Nat) (hi : i < l.length) :
    (l ++ r).getD i 0 = l.getD i 0 := by
  induction l generalizing i with
  | nil => simp at hi
  | cons a t ihl =>
    cases i with
    | zero => rfl
    | succ i => simpa using ihl i (by simpa using hi)

/-- An in-range read with default 0 yields an element of the list. -/
theorem getD_mem_of_lt (l : List Nat) (i : Nat) (hi : i < l.length) :
    l.getD i 0 ∈ l := by
  induction l generalizing i with
  | nil => simp at hi
  | cons a t ihl =>
    cases i with
    | zero => simp [List.getD]
    | succ i =>
      have := ihl i (by simpa using hi)
      simpa using Or.inr this

/-- Forcing a zero at an index leaves a zero readable there (also
when the index is past the end, where the default 0 is returned). -/
theorem getD_set_zero : ∀ (l : List Nat) (i : Nat),
    (l.set i 0).getD i 0 = 0
  | [], _ => rfl
  | _ :: _, 0 => rfl
  | _ :: l, i + 1 => getD_set_zero l i

/-- Loop invariant of the `StoreCallStack` search: the stored words
are the initial accumulator followed by exactly the code-range words
among the `D` words examined from `depth` on, for some iteration
count `D` bounded by the fuel; the store count never exceeds the
buffer length. -/
theorem walkAux_found (mem : Nat → Nat) (sp len : Nat) :
    ∀ (fuel depth : Nat) (acc : List Nat), acc.length < len →
      ∃ D, D ≤ fuel ∧
        walkAux mem sp len fuel depth acc
          = acc ++ (((List.range' depth D).map fun i => mem (sp + 4 * i)).filter
              isCodeAddr)
        ∧ (walkAux mem sp len fuel depth acc).length ≤ len := by
  intro fuel
  induction fuel with
  | zero =>
    intro depth acc h
    refine ⟨0, Nat.le_refl 0, by simp [walkAux], ?_⟩
    simp [walkAux]
    omega
  | succ fuel ih =>
    intro depth acc h
    by_cases h1 : mem (sp + 4 * depth) = STACK_MARKER
    · by_cases h2 : mem (sp + 4 * (depth + 1)) = STACK_MARKER
      · refine ⟨0, Nat.zero_le _, ?_, ?_⟩ <;> simp [walkAux, h1, h2]
        omega
      · have hl : ¬ len ≤ acc.length := by omega
        obtain ⟨D, hD, heq, hlen⟩ := ih (depth + 1) acc h
        refine ⟨D + 1, by omega, ?_, ?_⟩
        · simp only [walkAux, h1, h2, and_false, if_false,
            isCodeAddr_STACK_MARKER, Bool.false_eq_true, hl,
            List.range'_succ, List.map_cons, List.filter_cons]
          exact heq
        · simp only [walkAux, h1, h2, and_false, if_false,
            isCodeAddr_STACK_MARKER, Bool.false_eq_true, hl]
          exact hlen
    · by_cases hc : isCodeAddr (mem (sp + 4 * depth)) = true
      · by_cases hl : len ≤ (acc ++ [mem (sp + 4 * depth)]).length
        · have hl' : len ≤ acc.length + 1 := by simpa using hl
          refine ⟨1, by omega, ?_, ?_⟩
          · simp [walkAux, h1, hc, hl', List.range'_one]
          · simp [walkAux, h1, hc, hl']
            omega
        · have h' : (acc ++ [mem (sp + 4 * depth)]).length < len := by
            omega
          obtain ⟨D, hD, heq, hlen⟩ := ih (depth + 1)
            (acc ++ [mem (sp + 4 * depth)]) h'
          refine ⟨D + 1, by omega, ?_, ?_⟩
          · simp only [walkAux, h1, false_and, if_false, hc, if_true, hl,
              List.range'_succ, List.map_cons, List.filter_cons]
            simpa using heq
          · simp only [walkAux, h1, false_and, if_false, hc, if_true, hl]
            simpa using hlen
      · have hc' : isCodeAddr (mem (sp + 4 * depth)) = false := by
          simpa using hc
        have hl : ¬ len ≤ acc.length := by omega
        obtain ⟨D, hD, heq, hlen⟩ := ih (depth + 1) acc h
        refine ⟨D + 1, by omega, ?_, ?_⟩
        · simp only [walkAux, h1, false_and, if_false, hc',
            Bool.false_eq_true, hl, List.range'_succ, List.map_cons,
            List.filter_cons]
          exact heq
        · simp only [walkAux, h1, false_and, if_false, hc',
            Bool.false_eq_true, hl]
          exact hlen

/-- Loop invariant of the search's reads: every word offset read lies
within `fuel` of the starting depth (the neighbour read of the
marker-pair check accounts for the `+ fuel`, one past the last
iterated offset), and at most two words are read per iteration. -/
theorem walkReadsAux_le (mem : Nat → Nat) (sp len : Nat) :
    ∀ (fuel depth sd : Nat),
      (∀ r ∈ walkReadsAux mem sp len fuel depth sd, r ≤ depth + fuel)
      ∧ (walkReadsAux mem sp len fuel depth sd).length ≤ 2 * fuel := by
  intro fuel
  induction fuel with
  | zero =>
    intro depth sd
    simp [walkReadsAux]
  | succ fuel ih =>
    intro depth sd
    have hiter : ∀ r ∈ (if mem (sp + 4 * depth) = STACK_MARKER
        then [depth, depth + 1] else [depth]), r ≤ depth + 1 := by
      intro r hr
      split at hr <;> simp at hr <;> omega
    have hiterlen : (if mem (sp + 4 * depth) = STACK_MARKER
        then [depth, depth + 1] else [depth]).length ≤ 2 := by
      split <;> simp
    constructor
    · intro r hr
      simp only [walkReadsAux] at hr
      split at hr
      · exact Nat.le_trans (hiter r hr) (by omega)
      · split at hr <;> split at hr
        · exact Nat.le_trans (hiter r hr) (by omega)
        · rcases List.mem_append.1 hr with hr | hr
          · exact Nat.le_trans (hiter r hr) (by omega)
          · exact Nat.le_trans ((ih (depth + 1) (sd + 1)).1 r hr) (by omega)
        · exact Nat.le_trans (hiter r hr) (by omega)
        · rcases List.mem_append.1 hr with hr | hr
          · exact Nat.le_trans (hiter r hr) (by omega)
          · exact Nat.le_trans ((ih (depth + 1) sd).1 r hr) (by omega)
    · simp only [walkReadsAux]
      split
      · exact Nat.le_trans hiterlen (by omega)
      · split <;> split
        · exact Nat.le_trans hiterlen (by omega)
        · rw [List.length_append]
          have h3 := (ih (depth + 1) (sd + 1)).2
          omega
        · exact Nat.le_trans hiterlen (by omega)
        · rw [List.length_append]
          have h3 := (ih (depth + 1) sd).2
          omega

/-- The spec's description of what the scan collects: among the first
`D` stack words upward from `sp`, those in the code-segment range, in
stack order. -/
def specScanWords (mem : Nat → Nat) (sp D : Nat) : List Nat :=
  ((List.range D).map fun i => mem (sp + 4 * i)).filter isCodeAddr

/-- Concrete all-zero memory for witnesses. -/
def memZero : Nat → Nat := fun _ => 0

/-- Concrete cleared record (keys zero) for witnesses. -/
def dZero : CoreDumpData :=
  { Key := 0, NotKey := 0, SoftwareVersion := 0, AuxCode := 0,
    Typ := FaultType.SOFTWARE_ASSERTION, LineNumber := 0,
    FileName := List.replicate FILE_NAME_LEN 0,
    ActiveCallStack := List.replicate CALL_STACK_SIZE 0 }

/-! ### Claim theorems -/

/-- Claim C1: `IsCoreDumpSaved` returns true iff `Key` equals the
sentinel `0xDEADBEEF` and `NotKey` equals its 32-bit bitwise
complement; the result depends on the two key fields only (and, being
a pure function of the record, it mutates nothing). -/
theorem C1_is_saved_iff (d : CoreDumpData) :
    (IsCoreDumpSaved d = true ↔
      d.Key = KEY_CORE_DUMP_STORED ∧ d.NotKey = NOT_KEY_CORE_DUMP_STORED)
    ∧ ∀ (sv ax : Nat) (ty : FaultType) (ln : Nat) (fn cs : List Nat),
        IsCoreDumpSaved
          { d with SoftwareVersion := sv, AuxCode := ax, Typ := ty,
                   LineNumber := ln, FileName := fn, ActiveCallStack := cs }
          = IsCoreDumpSaved d := by
  constructor
  · unfold IsCoreDumpSaved
    split <;> simp_all
  · intro sv ax ty ln fn cs
    rfl

/-- Claim C2: first-writer-wins — if `IsCoreDumpSaved` holds,
`CoreDumpStore` returns immediately and leaves every field unchanged;
hence a second call (any arguments) after any call yields the same
record as the first call alone, and so calling `N > 1` times in
succession equals calling once. -/
theorem C2_first_writer_wins (mem mem2 : Nat → Nat) (d : CoreDumpData)
    (sp sp2 : Nat) (fn fn2 : Option (List Nat)) (ln ln2 ax ax2 : Nat) :
    (IsCoreDumpSaved d = true → CoreDumpStore mem d sp fn ln ax = d)
    ∧ CoreDumpStore mem2 (CoreDumpStore mem d sp fn ln ax) sp2 fn2 ln2 ax2
        = CoreDumpStore mem d sp fn ln ax :=
  ⟨fun h => store_of_saved mem d sp fn ln ax h,
   store_of_saved mem2 _ sp2 fn2 ln2 ax2 (isSaved_store mem d sp fn ln ax)⟩

/-- Claim C3: a capture on a not-yet-valid record makes `is_saved`
true, classifies the fault as `FAULT_EXCEPTION` iff the stack pointer
is nonzero and as `SOFTWARE_ASSERTION` iff it is zero, and populates
`SoftwareVersion` and `AuxCode`. -/
theorem C3_capture_classifies (mem : Nat → Nat) (d : CoreDumpData) (sp : Nat)
    (fn : Option (List Nat)) (ln ax : Nat) (h : IsCoreDumpSaved d = false) :
    IsCoreDumpSaved (CoreDumpStore mem d sp fn ln ax) = true
    ∧ (sp ≠ 0 →
        (CoreDumpStore mem d sp fn ln ax).Typ = FaultType.FAULT_EXCEPTION)
    ∧ (sp = 0 →
        (CoreDumpStore mem d sp fn ln ax).Typ = FaultType.SOFTWARE_ASSERTION)
    ∧ (CoreDumpStore mem d sp fn ln ax).SoftwareVersion = SOFTWARE_VERSION
    ∧ (CoreDumpStore mem d sp fn ln ax).AuxCode = ax := by
  refine ⟨isSaved_store mem d sp fn ln ax, ?_, ?_, ?_, ?_⟩
  all_goals rw [store_fields mem d sp fn ln ax h]
  all_goals intro hsp
  all_goals simp [hsp]

/-- Witness for C3 at a concrete input: cleared record, null stack
pointer, null file name, line 7, aux code 9. -/
theorem C3_capture_classifies_witness :
    IsCoreDumpSaved (CoreDumpStore memZero dZero 0 none 7 9) = true
    ∧ ((0:Nat) ≠ 0 →
        (CoreDumpStore memZero dZero 0 none 7 9).Typ
          = FaultType.FAULT_EXCEPTION)
    ∧ ((0:Nat) = 0 →
        (CoreDumpStore memZero dZero 0 none 7 9).Typ
          = FaultType.SOFTWARE_ASSERTION)
    ∧ (CoreDumpStore memZero dZero 0 none 7 9).SoftwareVersion
        = SOFTWARE_VERSION
    ∧ (CoreDumpStore memZero dZero 0 none 7 9).AuxCode = 9 :=
  C3_capture_classifies memZero dZero 0 none 7 9 (by decide)

/-- Claim C7: `CoreDumpReset` zeroes both key fields and nothing else;
afterwards `is_saved` is false while every other field keeps its
value, and a subsequent capture succeeds (record valid again). -/
theorem C7_reset_clears_keys_only (d : CoreDumpData) (mem : Nat → Nat)
    (sp : Nat) (fn : Option (List Nat)) (ln ax : Nat) :
    (CoreDumpReset d).Key = 0 ∧ (CoreDumpReset d).NotKey = 0
    ∧ (CoreDumpReset d).SoftwareVersion = d.SoftwareVersion
    ∧ (CoreDumpReset d).AuxCode = d.AuxCode
    ∧ (CoreDumpReset d).Typ = d.Typ
    ∧ (CoreDumpReset d).LineNumber = d.LineNumber
    ∧ (CoreDumpReset d).FileName = d.FileName
    ∧ (CoreDumpReset d).ActiveCallStack = d.ActiveCallStack
    ∧ IsCoreDumpSaved (CoreDumpReset d) = false
    ∧ IsCoreDumpSaved (CoreDumpStore mem (CoreDumpReset d) sp fn ln ax)
        = true := by
  refine ⟨rfl, rfl, rfl, rfl, rfl, rfl, rfl, rfl, ?_,
    isSaved_store mem _ sp fn ln ax⟩
  unfold IsCoreDumpSaved CoreDumpReset
  simp [KEY_CORE_DUMP_STORED]

/-- Claim C10 (implicit): in the default build a capture with a null
stack pointer — a software-assertion capture — never re-acquires the
stack pointer (no `USE_HARDWARE`), so the walker runs on address 0,
which lies below `RAM_BEGIN`, and the active backtrace is left
entirely zero. -/
theorem C10_null_sp_zero_backtrace (mem : Nat → Nat) (d : CoreDumpData)
    (fn : Option (List Nat)) (ln ax : Nat) (h : IsCoreDumpSaved d = false) :
    (CoreDumpStore mem d 0 fn ln ax).ActiveCallStack
      = List.replicate CALL_STACK_SIZE 0
    ∧ (CoreDumpStore mem d 0 fn ln ax).Typ = FaultType.SOFTWARE_ASSERTION := by
  rw [store_fields mem d 0 fn ln ax h]
  refine ⟨?_, by simp⟩
  show StoreCallStack mem 0 CALL_STACK_SIZE = _
  unfold StoreCallStack
  simp [RAM_BEGIN]

/-- Witness for C10 at a concrete input: cleared record, all-zero
memory, null file name. -/
theorem C10_null_sp_zero_backtrace_witness :
    (CoreDumpStore memZero dZero 0 none 3 4).ActiveCallStack
      = List.replicate CALL_STACK_SIZE 0
    ∧ (CoreDumpStore memZero dZero 0 none 3 4).Typ
        = FaultType.SOFTWARE_ASSERTION :=
  C10_null_sp_zero_backtrace memZero dZero none 3 4 (by decide)

/-- Every collected word is a code address, and in particular
nonzero (the code segment starts above 0). -/
theorem specScanWords_mem (mem : Nat → Nat) (sp D : Nat) :
    ∀ w ∈ specScanWords mem sp D,
      FLASH_BASE ≤ w ∧ w ≤ FLASH_END ∧ w ≠ 0 := by
  intro w hw
  unfold specScanWords at hw
  have hpred := (List.mem_filter.1 hw).2
  have h3 : FLASH_BASE ≤ w ∧ w ≤ FLASH_END := by
    have := of_decide_eq_true (by simpa [isCodeAddr] using hpred)
    exact this
  have h4 : 0 < FLASH_BASE := by decide
  exact ⟨h3.1, h3.2, by omega⟩

/-- Claim C4: for every walk, the output buffer has the form
`[a0, ..., a_{k-1}, 0, ..., 0]` with `k ≤ CALL_STACK_SIZE`: the
prefix is exactly the sequence of code-segment-range words among the
first `D` stack words scanned (stack order, `D` at most the depth
cap), every prefix entry lies in `[FLASH_BASE, FLASH_END]` and is
nonzero, and every entry from position `k` on is zero — so a zero
entry never precedes a nonzero one. -/
theorem C4_backtrace_form (mem : Nat → Nat) (sp : Nat) :
    ∃ k D, k ≤ CALL_STACK_SIZE ∧ D ≤ MAX_STACK_DEPTH_SEARCH
      ∧ (specScanWords mem sp D).length = k
      ∧ StoreCallStack mem sp CALL_STACK_SIZE
          = specScanWords mem sp D ++ List.replicate (CALL_STACK_SIZE - k) 0
      ∧ (∀ w ∈ specScanWords mem sp D,
          FLASH_BASE ≤ w ∧ w ≤ FLASH_END ∧ w ≠ 0)
      ∧ (∀ i, i < k → (StoreCallStack mem sp CALL_STACK_SIZE).getD i 0 ≠ 0)
      ∧ (∀ i, k ≤ i → (StoreCallStack mem sp CALL_STACK_SIZE).getD i 0 = 0)
      := by
  by_cases hsp : sp < RAM_BEGIN ∨ RAM_END < sp
  · refine ⟨0, 0, by omega, by omega, rfl, ?_, specScanWords_mem mem sp 0,
      ?_, ?_⟩
    · unfold StoreCallStack specScanWords
      rw [if_pos hsp]
      rfl
    · intro i hi
      omega
    · intro i _
      unfold StoreCallStack
      rw [if_pos hsp]
      exact getD_replicate_zero _ _
  · obtain ⟨D, hD, heq, hlen⟩ := walkAux_found mem sp CALL_STACK_SIZE
      MAX_STACK_DEPTH_SEARCH 0 [] (by decide)
    have hscan : walkAux mem sp CALL_STACK_SIZE MAX_STACK_DEPTH_SEARCH 0 []
        = specScanWords mem sp D := by
      rw [heq]
      unfold specScanWords
      rw [List.range_eq_range']
      simp
    rw [hscan] at hlen
    have hout : StoreCallStack mem sp CALL_STACK_SIZE
        = specScanWords mem sp D
          ++ List.replicate (CALL_STACK_SIZE - (specScanWords mem sp D).length)
              0 := by
      unfold StoreCallStack
      rw [if_neg hsp]
      simp only [hscan]
    refine ⟨(specScanWords mem sp D).length, D, hlen, hD, rfl, hout,
      specScanWords_mem mem sp D, ?_, ?_⟩
    · intro i hi
      rw [hout, getD_append_left _ _ _ hi]
      have hmem := getD_mem_of_lt (specScanWords mem sp D) i hi
      exact (specScanWords_mem mem sp D _ hmem).2.2
    · intro i hi
      rw [hout]
      exact getD_padded _ _ _ hi

/-- Claim C5: when the stack pointer lies outside the inclusive RAM
range, the walker raises nothing and leaves the active backtrace
entirely zero, while the rest of the capture still happens: keys,
version, aux code, fault kind, file name and line number are
recorded as usual. -/
theorem C5_out_of_ram_capture (mem : Nat → Nat) (d : CoreDumpData) (sp : Nat)
    (fn : Option (List Nat)) (ln ax : Nat)
    (hsp : sp < RAM_BEGIN ∨ RAM_END < sp) (h : IsCoreDumpSaved d = false) :
    (CoreDumpStore mem d sp fn ln ax).ActiveCallStack
      = List.replicate CALL_STACK_SIZE 0
    ∧ IsCoreDumpSaved (CoreDumpStore mem d sp fn ln ax) = true
    ∧ (CoreDumpStore mem d sp fn ln ax).Key = KEY_CORE_DUMP_STORED
    ∧ (CoreDumpStore mem d sp fn ln ax).NotKey = NOT_KEY_CORE_DUMP_STORED
    ∧ (CoreDumpStore mem d sp fn ln ax).SoftwareVersion = SOFTWARE_VERSION
    ∧ (CoreDumpStore mem d sp fn ln ax).AuxCode = ax
    ∧ (CoreDumpStore mem d sp fn ln ax).LineNumber = ln
    ∧ (sp ≠ 0 →
        (CoreDumpStore mem d sp fn ln ax).Typ = FaultType.FAULT_EXCEPTION)
    ∧ (sp = 0 →
        (CoreDumpStore mem d sp fn ln ax).Typ = FaultType.SOFTWARE_ASSERTION)
    ∧ (∀ s, fn = some s → (CoreDumpStore mem d sp fn ln ax).FileName
        = (strncpyList d.FileName s FILE_NAME_LEN).set (FILE_NAME_LEN - 1) 0)
    ∧ (fn = none → (CoreDumpStore mem d sp fn ln ax).FileName = d.FileName)
    := by
  have hsaved := isSaved_store mem d sp fn ln ax
  rw [store_fields mem d sp fn ln ax h] at hsaved ⊢
  refine ⟨?_, hsaved, rfl, rfl, rfl, rfl, rfl, ?_, ?_, ?_, ?_⟩
  · show StoreCallStack mem sp CALL_STACK_SIZE = _
    unfold StoreCallStack
    rw [if_pos hsp]
  · intro hz
    simp [hz]
  · intro hz
    simp [hz]
  · intro s hs
    subst hs
    rfl
  · intro hn
    subst hn
    rfl

/-- Witness for C5 at a concrete input: stack pointer 0 (below
`RAM_BEGIN`), cleared record, concrete two-byte file name. -/
theorem C5_out_of_ram_capture_witness :
    (CoreDumpStore memZero dZero 0 (some [104, 105]) 42 6).ActiveCallStack
      = List.replicate CALL_STACK_SIZE 0
    ∧ IsCoreDumpSaved (CoreDumpStore memZero dZero 0 (some [104, 105]) 42 6)
        = true
    ∧ (CoreDumpStore memZero dZero 0 (some [104, 105]) 42 6).Key
        = KEY_CORE_DUMP_STORED
    ∧ (CoreDumpStore memZero dZero 0 (some [104, 105]) 42 6).NotKey
        = NOT_KEY_CORE_DUMP_STORED
    ∧ (CoreDumpStore memZero dZero 0 (some [104, 105]) 42 6).SoftwareVersion
        = SOFTWARE_VERSION
    ∧ (CoreDumpStore memZero dZero 0 (some [104, 105]) 42 6).AuxCode = 6
    ∧ (CoreDumpStore memZero dZero 0 (some [104, 105]) 42 6).LineNumber = 42
    ∧ ((0:Nat) ≠ 0 →
        (CoreDumpStore memZero dZero 0 (some [104, 105]) 42 6).Typ
          = FaultType.FAULT_EXCEPTION)
    ∧ ((0:Nat) = 0 →
        (CoreDumpStore memZero dZero 0 (some [104, 105]) 42 6).Typ
          = FaultType.SOFTWARE_ASSERTION)
    ∧ (∀ s, (some [104, 105] : Option (List Nat)) = some s →
        (CoreDumpStore memZero dZero 0 (some [104, 105]) 42 6).FileName
          = (strncpyList dZero.FileName s FILE_NAME_LEN).set
              (FILE_NAME_LEN - 1) 0)
    ∧ ((some [104, 105] : Option (List Nat)) = none →
        (CoreDumpStore memZero dZero 0 (some [104, 105]) 42 6).FileName
          = dZero.FileName) :=
  C5_out_of_ram_capture memZero dZero 0 (some [104, 105]) 42 6
    (Or.inl (by decide)) (by decide)

/-- Claim C6 (amended): the walker examines at most
`MAX_STACK_DEPTH_SEARCH` stack words (two reads per iteration at
most), and no read reaches past word offset `MAX_STACK_DEPTH_SEARCH`;
the neighbour read of the marker-pair check can, however, touch
offset `MAX_STACK_DEPTH_SEARCH` itself (see the counterexample). -/
theorem C6_walker_reads_bounded (mem : Nat → Nat) (sp : Nat) :
    (∀ r ∈ storeCallStackReads mem sp CALL_STACK_SIZE,
        r ≤ MAX_STACK_DEPTH_SEARCH)
    ∧ (storeCallStackReads mem sp CALL_STACK_SIZE).length
        ≤ 2 * MAX_STACK_DEPTH_SEARCH := by
  unfold storeCallStackReads
  split
  · simp
  · have h := walkReadsAux_le mem sp CALL_STACK_SIZE MAX_STACK_DEPTH_SEARCH 0 0
    exact ⟨fun r hr => by have := h.1 r hr; omega, h.2⟩

/-- Memory whose only nonzero word sits at stack-word offset
`MAX_STACK_DEPTH_SEARCH - 1` and equals the stack marker. -/
def memMarkerLast : Nat → Nat := fun a =>
  if a = RAM_BEGIN + 4 * (MAX_STACK_DEPTH_SEARCH - 1) then STACK_MARKER else 0

set_option maxRecDepth 100000 in
/-- Claim C6 counterexample: with `memMarkerLast` and stack pointer
`RAM_BEGIN`, the last iteration's marker-pair check short-circuit
reads the neighbour word at offset `MAX_STACK_DEPTH_SEARCH` — so the
claim that no word at offset `MAX_STACK_DEPTH_SEARCH` or beyond is
ever read (including the neighbour read) is false on the code. -/
theorem C6_reads_offset_MAX :
    MAX_STACK_DEPTH_SEARCH ∈
      storeCallStackReads memMarkerLast RAM_BEGIN CALL_STACK_SIZE := by
  decide

/-- A record whose keys are cleared but whose (uninitialized)
file-name buffer does not end in a 0 byte. -/
def dNoTerm : CoreDumpData :=
  { Key := 0, NotKey := 0, SoftwareVersion := 0, AuxCode := 0,
    Typ := FaultType.SOFTWARE_ASSERTION, LineNumber := 0,
    FileName := List.replicate (FILE_NAME_LEN - 1) 0 ++ [65],
    ActiveCallStack := List.replicate CALL_STACK_SIZE 0 }

/-- Claim C8 counterexample: a capture with a null `fileName` on a
record whose file-name buffer does not end in 0 (possible after a
cold boot, whose record contents are unspecified) leaves the last
byte nonzero — `file_name[FILE_NAME_LEN-1] == 0` does not hold after
every capture. -/
theorem C8_counterexample_null_name :
    (CoreDumpStore memZero dNoTerm 0 none 1 2).FileName.getD
      (FILE_NAME_LEN - 1) 0 ≠ 0 := by
  decide

/-- Claim C8 (amended): after a capture with a non-null `fileName`
the buffer equals the size-bounded, right-truncated copy with a
forced 0 at index `FILE_NAME_LEN - 1` (so it is null-terminated); a
capture with a null `fileName` leaves the buffer exactly as it was —
hence still null-terminated at the tail whenever it already was —
and the other fields are still captured (the record becomes valid).
-/
theorem C8_filename_terminated (mem : Nat → Nat) (d : CoreDumpData) (sp : Nat)
    (fn : Option (List Nat)) (ln ax : Nat) (h : IsCoreDumpSaved d = false) :
    (∀ s, fn = some s →
        (CoreDumpStore mem d sp fn ln ax).FileName
          = (strncpyList d.FileName s FILE_NAME_LEN).set (FILE_NAME_LEN - 1) 0
        ∧ (CoreDumpStore mem d sp fn ln ax).FileName.getD
            (FILE_NAME_LEN - 1) 0 = 0)
    ∧ (fn = none → (CoreDumpStore mem d sp fn ln ax).FileName = d.FileName)
    ∧ IsCoreDumpSaved (CoreDumpStore mem d sp fn ln ax) = true := by
  refine ⟨?_, ?_, isSaved_store mem d sp fn ln ax⟩
  · intro s hs
    subst hs
    rw [store_fields mem d sp (some s) ln ax h]
    exact ⟨rfl, getD_set_zero _ _⟩
  · intro hn
    subst hn
    rw [store_fields mem d sp none ln ax h]

/-- Witness for C8 (amended) at a concrete input: cleared record with
an unterminated buffer, non-null two-byte file name. -/
theorem C8_filename_terminated_witness :
    (∀ s, (some [66, 67] : Option (List Nat)) = some s →
        (CoreDumpStore memZero dNoTerm 0 (some [66, 67]) 5 6).FileName
          = (strncpyList dNoTerm.FileName s FILE_NAME_LEN).set
              (FILE_NAME_LEN - 1) 0
        ∧ (CoreDumpStore memZero dNoTerm 0 (some [66, 67]) 5 6).FileName.getD
            (FILE_NAME_LEN - 1) 0 = 0)
    ∧ ((some [66, 67] : Option (List Nat)) = none →
        (CoreDumpStore memZero dNoTerm 0 (some [66, 67]) 5 6).FileName
          = dNoTerm.FileName)
    ∧ IsCoreDumpSaved (CoreDumpStore memZero dNoTerm 0 (some [66, 67]) 5 6)
        = true :=
  C8_filename_terminated memZero dNoTerm 0 (some [66, 67]) 5 6 (by decide)

/-- Task table whose only live control block sits at index
`OS_TASKCNT` (a legal state of the external table; the claim says the
walker never consults that index). -/
def tableLastOnly : Nat → Option Nat := fun t =>
  if t = OS_TASKCNT then some 0 else none

/-- Claim C9, evaluation at the failing input: the inclusive loop
bound `t <= OS_TASKCNT` makes the multi-task walker read the
task-table entries at indices 0 through `OS_TASKCNT` — one past the
declared cap — and walk the task found at index `OS_TASKCNT`,
contradicting the claim that only indices `0 .. OS_TASKCNT - 1` are
read.  (The spec itself flags the inclusive bound as a one-off bug.)
-/
theorem C9_reads_index_OS_TASKCNT :
    (StoreThreadCallStacks memZero tableLastOnly OS_TASKCNT).2
      = [0, 1, 2, 3, 4, OS_TASKCNT]
    ∧ (StoreThreadCallStacks memZero tableLastOnly OS_TASKCNT).1
      = [(OS_TASKCNT, 0, List.replicate CALL_STACK_SIZE 0)] := by
  decide

end CoreDump
